import Mathlib

/-!
Verification of the Dart analyzer / Flutter test generator skills
(`skills/code/analyze_dart.py`, `skills/code/generate_tests.py`).

The Python code is regex-driven; Python regular expressions are embedded by a
small backtracking engine (`RE`, `reMatch`) with Python's leftmost, greedy,
backtracking semantics, and every pattern of the source is transcribed
literally into an `RE` value.  Character-level string helpers mirror the
Python `str` methods used by the code (`strip`, `split`, `replace`, `find`).
File input is modelled as `Option String` (`none` = unreadable file) and the
output file system of the generator as `Option String`.
-/

namespace FlutterSkills

/-! ### Python character classes and string helpers -/

/-- Python `\s` (ASCII): space, tab, newline, carriage return, vertical tab, form feed. -/
def pyIsSpace (c : Char) : Bool :=
  c = ' ' || c = Char.ofNat 9 || c = Char.ofNat 10 || c = Char.ofNat 13 ||
  c = Char.ofNat 11 || c = Char.ofNat 12

/-- Python `\w` (ASCII): letters, digits, underscore. -/
def pyIsWord (c : Char) : Bool := c.isAlphanum || c = '_'

def lbraceC : Char := Char.ofNat 123
def rbraceC : Char := Char.ofNat 125
def dquoteC : Char := Char.ofNat 34
def squoteC : Char := Char.ofNat 39
def newlineC : Char := Char.ofNat 10

/-- Python `str.strip()` on a character list. -/
def pyStripList (cs : List Char) : List Char :=
  ((cs.dropWhile pyIsSpace).reverse.dropWhile pyIsSpace).reverse

/-- Python `str.strip()`. -/
def pyStrip (s : String) : String := ⟨pyStripList s.data⟩

/-- Python `str.split(sep)` for a single-character separator (keeps empty pieces). -/
def splitOnChar (sep : Char) : List Char → List (List Char)
  | [] => [[]]
  | c :: rest =>
    let r := splitOnChar sep rest
    if c = sep then [] :: r
    else (c :: r.headD []) :: r.tail

/-- Whether `sub` is a prefix of `cs` (decidable, executable). -/
def listStartsWith : List Char → List Char → Bool
  | [], _ => true
  | _ :: _, [] => false
  | a :: as, b :: bs => a = b && listStartsWith as bs

/-- Python `sub in hay` on character lists. -/
def containsSubList (sub : List Char) : List Char → Bool
  | [] => listStartsWith sub []
  | c :: rest => listStartsWith sub (c :: rest) || containsSubList sub rest

/-- Python `sub in hay` on strings. -/
def containsSub (hay sub : String) : Bool := containsSubList sub.data hay.data

/-- `str.startswith(pre)`, kernel-reducible (list-based). -/
def strStartsWith (s pre : String) : Bool := listStartsWith pre.data s.data

/-- `str.endswith(suf)`, kernel-reducible (list-based). -/
def strEndsWith (s suf : String) : Bool :=
  listStartsWith suf.data.reverse s.data.reverse

/-- Drop the first `n` characters (Python `s[n:]`), kernel-reducible. -/
def strDrop (s : String) (n : Nat) : String := ⟨s.data.drop n⟩

/-- Drop the last `n` characters (Python `s[:-n]`), kernel-reducible. -/
def strDropRight (s : String) (n : Nat) : String :=
  ⟨s.data.take (s.data.length - n)⟩

/-- `sep.join(parts)`, kernel-reducible. -/
def joinWith (sep : String) : List String → String
  | [] => ""
  | [x] => x
  | x :: xs => x ++ sep ++ joinWith sep xs

/-- `str.lower()` (ASCII), kernel-reducible. -/
def pyToLower (s : String) : String := ⟨s.data.map Char.toLower⟩


/-- Python `str.replace(sub, repl)` (all non-overlapping occurrences), fuelled. -/
def replaceList (sub repl : List Char) : Nat → List Char → List Char
  | 0, cs => cs
  | _ + 1, [] => []
  | fuel + 1, c :: rest =>
    if sub ≠ [] && listStartsWith sub (c :: rest) then
      repl ++ replaceList sub repl fuel ((c :: rest).drop sub.length)
    else c :: replaceList sub repl fuel rest

/-- Python `str.replace(sub, repl)` for non-empty `sub`. -/
def pyReplace (s sub repl : String) : String :=
  ⟨replaceList sub.data repl.data s.data.length s.data⟩

/-- Replace only the first occurrence of `sub` (used to render the claim text of C9). -/
def replaceFirstList (sub repl : List Char) : Nat → List Char → List Char
  | 0, cs => cs
  | _ + 1, [] => []
  | fuel + 1, c :: rest =>
    if sub ≠ [] && listStartsWith sub (c :: rest) then
      repl ++ (c :: rest).drop sub.length
    else c :: replaceFirstList sub repl fuel rest

def replaceFirst (s sub repl : String) : String :=
  ⟨replaceFirstList sub.data repl.data s.data.length s.data⟩

/-- Python `str.split(sub)` for a multi-character separator, fuelled. -/
def splitOnSubList (sub : List Char) : Nat → List Char → List (List Char)
  | _, [] => [[]]
  | 0, cs => [cs]
  | fuel + 1, c :: rest =>
    if sub ≠ [] && listStartsWith sub (c :: rest) then
      [] :: splitOnSubList sub fuel ((c :: rest).drop sub.length)
    else
      let r := splitOnSubList sub fuel rest
      (c :: r.headD []) :: r.tail

/-- `content.find(c, start)` (Python: `-1` becomes `none`). -/
def findCharFrom (cs : List Char) (c : Char) (start : Nat) : Option Nat :=
  go (cs.drop start) start
where
  go : List Char → Nat → Option Nat
    | [], _ => none
    | x :: rest, i => if x = c then some i else go rest (i + 1)

/-- `content.find(sub, start)` for a substring. -/
def findSubFrom (cs : List Char) (sub : List Char) (start : Nat) : Option Nat :=
  go (cs.drop start) start
where
  go : List Char → Nat → Option Nat
    | [], i => if listStartsWith sub [] then some i else none
    | x :: rest, i => if listStartsWith sub (x :: rest) then some i else go rest (i + 1)

/-- `content[a:b]` as a character list. -/
def slice (cs : List Char) (a b : Nat) : List Char := (cs.drop a).take (b - a)

def countNewlines (cs : List Char) : Nat := cs.countP (fun c => c = newlineC)

/-- Length of the maximal run of characters satisfying `p`. -/
def countWhile (p : Char → Bool) : List Char → Nat
  | [] => 0
  | c :: rest => if p c then countWhile p rest + 1 else 0

/-- Python `dict` insertion: overwrite in place if the key exists, else append. -/
def dictInsert (k v : String) : List (String × String) → List (String × String)
  | [] => [(k, v)]
  | (k0, v0) :: rest =>
    if k0 = k then (k0, v) :: rest else (k0, v0) :: dictInsert k v rest

/-! ### A small backtracking regex engine (Python `re` semantics)

Quantifiers apply only to single-character classes, which is all the source
patterns use; `opt` is the greedy `(?: ... )?`; `grp` is a capture group;
`bol` is `^` under `re.MULTILINE`. -/

inductive RE where
  | lit : List Char → RE
  | cls : (Char → Bool) → RE
  | star : (Char → Bool) → RE
  | plus : (Char → Bool) → RE
  | opt : RE → RE
  | seq : RE → RE → RE
  | grp : Nat → RE → RE
  | bol : RE

/-- Try `k` on counts `n, n-1, …, 0` (greedy `*`). -/
def tryFrom (k : Nat → Option α) : Nat → Option α
  | 0 => k 0
  | n + 1 => (k (n + 1)).orElse (fun _ => tryFrom k n)

/-- Try `k` on counts `n, n-1, …, 1` (greedy `+`). -/
def tryFromOne (k : Nat → Option α) : Nat → Option α
  | 0 => none
  | n + 1 => (k (n + 1)).orElse (fun _ => tryFromOne k n)

/-- Backtracking matcher in continuation style.  The continuation receives the
position after this fragment and the capture list (group index, start, stop);
the first success in Python's preference order wins. -/
def reMatch (cs : List Char) :
    RE → Nat → List (Nat × Nat × Nat) →
    (Nat → List (Nat × Nat × Nat) → Option (Nat × List (Nat × Nat × Nat))) →
    Option (Nat × List (Nat × Nat × Nat))
  | .lit l, pos, caps, k =>
    if listStartsWith l (cs.drop pos) then k (pos + l.length) caps else none
  | .cls p, pos, caps, k =>
    match cs.drop pos with
    | [] => none
    | c :: _ => if p c then k (pos + 1) caps else none
  | .star p, pos, caps, k =>
    tryFrom (fun i => k (pos + i) caps) (countWhile p (cs.drop pos))
  | .plus p, pos, caps, k =>
    tryFromOne (fun i => k (pos + i) caps) (countWhile p (cs.drop pos))
  | .opt r, pos, caps, k =>
    (reMatch cs r pos caps k).orElse (fun _ => k pos caps)
  | .seq r1 r2, pos, caps, k =>
    reMatch cs r1 pos caps (fun p c => reMatch cs r2 p c k)
  | .grp i r, pos, caps, k =>
    reMatch cs r pos caps (fun p c => k p ((i, pos, p) :: c))
  | .bol, pos, caps, k =>
    if pos = 0 then k pos caps
    else if (cs.drop (pos - 1)).headD ' ' = newlineC then k pos caps else none

/-- Python `pattern.match`-style anchored attempt at `pos`. -/
def reMatchAt (r : RE) (cs : List Char) (pos : Nat) :
    Option (Nat × List (Nat × Nat × Nat)) :=
  reMatch cs r pos [] (fun p c => some (p, c))

structure RMatch where
  start : Nat
  stop : Nat
  caps : List (Nat × Nat × Nat)
deriving DecidableEq, Repr

/-- Python `finditer`: scan left to right, non-overlapping. -/
def reFindAux (r : RE) (cs : List Char) : Nat → Nat → List RMatch
  | 0, _ => []
  | fuel + 1, pos =>
    if pos > cs.length then []
    else
      match reMatchAt r cs pos with
      | some (e, caps) =>
        ⟨pos, e, caps⟩ :: reFindAux r cs fuel (if pos < e then e else pos + 1)
      | none => reFindAux r cs fuel (pos + 1)

def reFindAll (r : RE) (cs : List Char) : List RMatch :=
  reFindAux r cs (cs.length + 2) 0

/-- Python `re.search`: first match. -/
def reSearch (r : RE) (cs : List Char) : Option RMatch := (reFindAll r cs).head?

/-- `m.group(i)`: `none` when the group did not participate in the match. -/
def capGet (cs : List Char) (m : RMatch) (i : Nat) : Option String :=
  match m.caps.find? (fun t => t.1 == i) with
  | some t => some ⟨(cs.drop t.2.1).take (t.2.2 - t.2.1)⟩
  | none => none

/-- Python `re.sub(pattern, '', s)`: delete every match. -/
def reSub (r : RE) (cs : List Char) : List Char :=
  let spans := (reFindAll r cs).map (fun m => (m.start, m.stop))
  (cs.enum).filterMap (fun p =>
    if spans.any (fun s => decide (s.1 ≤ p.1 ∧ p.1 < s.2)) then none else some p.2)

/-- Right-fold a list of fragments into nested `seq`s. -/
def reSeq : List RE → RE
  | [] => .lit []
  | [r] => r
  | r :: rest => .seq r (reSeq rest)

/-! ### The source regex patterns, transcribed

Group numbering follows the order of `(`-groups in the Python source. -/

/-- Character class `[\w<>,\?\s]` used for type text. -/
def typeCharP (c : Char) : Bool :=
  pyIsWord c || c = '<' || c = '>' || c = ',' || c = '?' || pyIsSpace c

def notParenP (c : Char) : Bool := !(c = ')')
def notRBraceP (c : Char) : Bool := !(c = rbraceC)
def notRBrackP (c : Char) : Bool := !(c = ']')
def notCommaBrP (c : Char) : Bool := !(c = ',' || c = rbraceC || c = ']')
def quoteCP (c : Char) : Bool := c = squoteC || c = dquoteC
def notQuoteP (c : Char) : Bool := !(quoteCP c)
def partOfCharP (c : Char) : Bool := !(quoteCP c || c = ';' || pyIsSpace c)
def extendsCharP (c : Char) : Bool := pyIsWord c || c = '<' || c = '>'
def withCharP (c : Char) : Bool :=
  pyIsWord c || c = '<' || c = '>' || c = ',' || pyIsSpace c

/-- `DartAnalyzer.param_pattern`:
`(?:(required)\s+)?([\w<>,\?\s]+)?\s*(\w+)(?:\s*=\s*([^,\}\]]+))?`. -/
def param_pattern : RE := reSeq [
  .opt (reSeq [.grp 1 (.lit ("required").data), .plus pyIsSpace]),
  .opt (.grp 2 (.plus typeCharP)),
  .star pyIsSpace,
  .grp 3 (.plus pyIsWord),
  .opt (reSeq [.star pyIsSpace, .lit ['='], .star pyIsSpace,
               .grp 4 (.plus notCommaBrP)])
]

/-- Shared tail of the top-level function and method patterns:
`(static\s+)?(async\s+)?([\w<>,\?\s]+\s+)?(\w+)\s*\(([^)]*)\)\s*(?:async\s*)?[{=]`. -/
def functionPatternTail : List RE := [
  .opt (.grp 1 (reSeq [.lit ("static").data, .plus pyIsSpace])),
  .opt (.grp 2 (reSeq [.lit ("async").data, .plus pyIsSpace])),
  .opt (.grp 3 (reSeq [.plus typeCharP, .plus pyIsSpace])),
  .grp 4 (.plus pyIsWord),
  .star pyIsSpace,
  .lit ['('],
  .grp 5 (.star notParenP),
  .lit [')'],
  .star pyIsSpace,
  .opt (reSeq [.lit ("async").data, .star pyIsSpace]),
  .cls (fun c => c = lbraceC || c = '=')
]

/-- The top-level `function_pattern` (`re.MULTILINE`, anchored with `^`). -/
def function_pattern : RE := reSeq (.bol :: functionPatternTail)

/-- The per-class `method_pattern`: the same with a leading `^\s*`. -/
def method_pattern : RE := reSeq (.bol :: .star pyIsSpace :: functionPatternTail)

/-- `class_pattern`:
`^(abstract\s+)?class\s+(\w+)(?:\s+extends\s+([\w<>]+))?(?:\s+with\s+([\w<>,\s]+))?(?:\s+implements\s+([\w<>,\s]+))?\s*\{`. -/
def class_pattern : RE := reSeq [
  .bol,
  .opt (.grp 1 (reSeq [.lit ("abstract").data, .plus pyIsSpace])),
  .lit ("class").data, .plus pyIsSpace,
  .grp 2 (.plus pyIsWord),
  .opt (reSeq [.plus pyIsSpace, .lit ("extends").data, .plus pyIsSpace,
               .grp 3 (.plus extendsCharP)]),
  .opt (reSeq [.plus pyIsSpace, .lit ("with").data, .plus pyIsSpace,
               .grp 4 (.plus withCharP)]),
  .opt (reSeq [.plus pyIsSpace, .lit ("implements").data, .plus pyIsSpace,
               .grp 5 (.plus withCharP)]),
  .star pyIsSpace,
  .lit [lbraceC]
]

/-- `import\s+['\"]([^'\"]+)['\"]` (used with `re.findall`). -/
def import_pattern : RE := reSeq [
  .lit ("import").data, .plus pyIsSpace, .cls quoteCP,
  .grp 1 (.plus notQuoteP), .cls quoteCP
]

/-- `part\s+of\s+['\"]?([^'\";\s]+)` (used with `re.search`). -/
def part_of_pattern : RE := reSeq [
  .lit ("part").data, .plus pyIsSpace, .lit ("of").data, .plus pyIsSpace,
  .opt (.cls quoteCP), .grp 1 (.plus partOfCharP)
]

/-- `\{([^}]*)\}` (named-parameter group, `re.search`). -/
def brace_group_pattern : RE :=
  reSeq [.lit [lbraceC], .grp 1 (.star notRBraceP), .lit [rbraceC]]

/-- `\[([^\]]*)\]` (optional-positional group, `re.search`). -/
def bracket_group_pattern : RE :=
  reSeq [.lit ['['], .grp 1 (.star notRBrackP), .lit [']']]

/-- `\{[^}]*\}` (brace group eraser, `re.sub`). -/
def brace_sub_pattern : RE := reSeq [.lit [lbraceC], .star notRBraceP, .lit [rbraceC]]

/-- `\[[^\]]*\]` (bracket group eraser, `re.sub`). -/
def bracket_sub_pattern : RE := reSeq [.lit ['['], .star notRBrackP, .lit [']']]

/-! ### Data model (`analyze_dart.py` dataclasses) -/

structure Parameter where
  name : String
  type : Option String
  is_required : Bool
  is_named : Bool
  default_value : Option String
deriving DecidableEq, Repr

structure Function where
  name : String
  return_type : Option String
  parameters : List Parameter
  is_async : Bool
  is_static : Bool
  is_private : Bool
  doc_comment : Option String
  line_number : Nat
  body_preview : String
deriving DecidableEq, Repr

structure DartClass where
  name : String
  is_abstract : Bool
  /-- Source field `extends` (a Lean keyword, hence the quoted name). -/
  «extends» : Option String
  implements : List String
  mixins : List String
  methods : List Function
  constructors : List Function
  fields : List (List (String × String))
  doc_comment : Option String
  line_number : Nat
deriving DecidableEq, Repr

structure AnalysisResult where
  file_path : String
  top_level_functions : List Function
  classes : List DartClass
  imports : List String
  part_of : Option String
  errors : List String
deriving DecidableEq, Repr

/-! ### Brace-range matcher

All three depth-counting scans in `analyze_dart.py` (body preview, class body,
class ranges) share this loop: starting at `start`, increment on each opening
brace and decrement on each closing brace, reporting the offset where the
depth first returns to 0; if that never happens the Python loop leaves its
accumulator at its initial value, which callers encode with `getD`. -/

def matchingBrace (cs : List Char) (start : Nat) : Option Nat :=
  go (cs.drop start) start 0
where
  go : List Char → Nat → Int → Option Nat
    | [], _, _ => none
    | c :: rest, i, depth =>
      if c = lbraceC then go rest (i + 1) (depth + 1)
      else if c = rbraceC then
        let d := depth - 1
        if d = 0 then some i else go rest (i + 1) d
      else go rest (i + 1) depth

/-- `end_pos` of `extract_body_preview` and `class_end` of the class-body scan:
initialised to the opening-brace offset, updated only when the depth returns
to zero. -/
def bodyEndPos (cs : List Char) (bracePos : Nat) : Nat :=
  (matchingBrace cs bracePos).getD bracePos

/-- `class_end` of the class-ranges scan: initialised to `class_match.end()`,
set to one past the closing brace when found (the scan starts at
`class_match.end() - 1`, the opening brace). -/
def classRangeStop (cs : List Char) (matchStop : Nat) : Nat :=
  match matchingBrace cs (matchStop - 1) with
  | some i => i + 1
  | none => matchStop

/-! ### Doc-comment associator (`DartAnalyzer.extract_doc_comment`) -/

/-- Walk upward from line index `idx - 1` (the argument is one past the current
line), collecting stripped `///` lines, passing over block-comment-looking
lines and blank lines, stopping at anything else. -/
def docWalk (lines : List String) : Nat → List String → List String
  | 0, acc => acc
  | i + 1, acc =>
    let line := pyStrip (lines.getD i (""))
    if strStartsWith line ("///") then docWalk lines i (pyStrip (strDrop line 3) :: acc)
    else if strStartsWith line ("/*") || strEndsWith line ("*/") || strStartsWith line ("*") then
      docWalk lines i acc
    else if line = "" then docWalk lines i acc
    else acc

def extract_doc_comment (lines : List String) (line_idx : Nat) : Option String :=
  let comments := docWalk lines line_idx []
  if comments.isEmpty then none else some (joinWith "\n" comments)

/-! ### Parameter-list parser (`DartAnalyzer.parse_parameters`) -/

/-- Split a group's text on commas, strip each piece, drop empties
(the `if not part: continue` of every loop in `parse_parameters`). -/
def entriesOf (group_str : String) : List String :=
  (((splitOnChar ',' group_str.data).map (fun cs => pyStrip ⟨cs⟩)).filter
    (fun p => p ≠ ""))

/-- Build a `Parameter` from a `param_pattern` match on `part`
(groups: 2 = type, 3 = name, 4 = default). -/
def paramOfMatch (part : String) (req named : Bool)
    (ec : Nat × List (Nat × Nat × Nat)) : Parameter :=
  let m : RMatch := ⟨0, ec.1, ec.2⟩
  { name := (capGet part.data m 3).getD ("")
    type := (capGet part.data m 2).map pyStrip
    is_required := req
    is_named := named
    default_value := (capGet part.data m 4).map pyStrip }

/-- A plain positional entry: always `is_required`, never `is_named`. -/
def parsePositionalEntry (part : String) : Option Parameter :=
  (reMatchAt param_pattern part.data 0).map (paramOfMatch part true false)

/-- A brace-group entry: `is_required` is `'required' in part` (a substring
test), the `required` text is erased before matching, always `is_named`. -/
def parseNamedEntry (part : String) : Option Parameter :=
  let req := containsSub part ("required")
  let cleaned := pyStrip (pyReplace part ("required") (""))
  (reMatchAt param_pattern cleaned.data 0).map (paramOfMatch cleaned req true)

/-- A bracket-group entry: never `is_required`, never `is_named`. -/
def parseOptionalEntry (part : String) : Option Parameter :=
  (reMatchAt param_pattern part.data 0).map (paramOfMatch part false false)

/-- `re.search(r'\{([^}]*)\}', param_str)`, group 1. -/
def namedGroupStr (param_str : String) : Option String :=
  (reSearch brace_group_pattern param_str.data).bind
    (fun m => capGet param_str.data m 1)

/-- `re.search(r'\[([^\]]*)\]', param_str)`, group 1. -/
def bracketGroupStr (param_str : String) : Option String :=
  (reSearch bracket_group_pattern param_str.data).bind
    (fun m => capGet param_str.data m 1)

/-- The plain positional remainder: both groups erased by `re.sub`. -/
def positionalStr (param_str : String) : String :=
  ⟨reSub bracket_sub_pattern (reSub brace_sub_pattern param_str.data)⟩

def positionalParams (param_str : String) : List Parameter :=
  (entriesOf (positionalStr param_str)).filterMap parsePositionalEntry

def namedEntriesOf (param_str : String) : List String :=
  match namedGroupStr param_str with
  | none => []
  | some g => entriesOf g

def namedParams (param_str : String) : List Parameter :=
  (namedEntriesOf param_str).filterMap parseNamedEntry

def optionalParams (param_str : String) : List Parameter :=
  match bracketGroupStr param_str with
  | none => []
  | some g => (entriesOf g).filterMap parseOptionalEntry

def parse_parameters (param_str : String) : List Parameter :=
  if pyStrip param_str = "" then []
  else positionalParams param_str ++ namedParams param_str ++ optionalParams param_str

/-! ### Body preview (`DartAnalyzer.extract_body_preview`) -/

def extract_body_preview (content : List Char) (start_pos : Nat) : String :=
  match findCharFrom content lbraceC start_pos with
  | none =>
    match findSubFrom content ("=>").data start_pos with
    | some ap =>
      match findCharFrom content ';' ap with
      | some ep => pyStrip ⟨slice content ap (ep + 1)⟩
      | none => ""
    | none => ""
  | some bp =>
    let e := bodyEndPos content bp
    let body := slice content bp (e + 1)
    joinWith "\n" (((splitOnChar newlineC body).take 5).map
      (fun cs => (⟨cs⟩ : String)))

/-! ### Signature matcher and analyzer (`DartAnalyzer.parse_function`, `analyze`) -/

def parse_function (m : RMatch) (lines : List String) (content : List Char) :
    Function :=
  let name := (capGet content m 4).getD ("")
  let params_str := (capGet content m 5).getD ("")
  let line_number := countNewlines (content.take m.start) + 1
  { name := name
    return_type := (capGet content m 3).map pyStrip
    parameters := parse_parameters params_str
    is_async := (capGet content m 2).isSome
    is_static := (capGet content m 1).isSome
    is_private := strStartsWith name ("_")
    doc_comment := extract_doc_comment lines (line_number - 1)
    line_number := line_number
    body_preview := extract_body_preview content m.stop }

/-- The `(class_start, class_end)` ranges computed in the second
`class_pattern.finditer` loop of `analyze`. -/
def classRanges (content : List Char) : List (Nat × Nat) :=
  (reFindAll class_pattern content).map
    (fun m => (m.start, classRangeStop content m.stop))

def functionMatches (content : List Char) : List RMatch :=
  reFindAll function_pattern content

/-- Function-shaped matches that survive the containment filter
(`in_class` check of `analyze`). -/
def topLevelMatches (content : List Char) : List RMatch :=
  (functionMatches content).filter (fun m =>
    !((classRanges content).any (fun r => decide (r.1 ≤ m.start ∧ m.start < r.2))))

def top_level_functions_of (lines : List String) (content : List Char) :
    List Function :=
  (topLevelMatches content).filterMap (fun m =>
    let f := parse_function m lines content
    if f.name = "main" ∨ f.name = "build" then none else some f)

/-- One `DartClass` from a `class_pattern` match (first finditer loop of
`analyze`): extract the class body by brace matching, then run
`method_pattern` inside it, excluding the method named like the class. -/
def buildClass (lines : List String) (content : List Char) (m : RMatch) :
    DartClass :=
  let class_name := (capGet content m 2).getD ("")
  let line_number := countNewlines (content.take m.start) + 1
  let class_start := m.stop - 1
  let class_end := bodyEndPos content class_start
  let class_body := slice content class_start (class_end + 1)
  let methods := (reFindAll method_pattern class_body).filterMap (fun mm =>
    let mname := (capGet class_body mm 4).getD ("")
    if mname = class_name then none
    else
      let f := parse_function mm lines class_body
      some { f with line_number := line_number + countNewlines (class_body.take mm.start) })
  { name := class_name
    is_abstract := (capGet content m 1).isSome
    «extends» := capGet content m 3
    implements := entriesOf ((capGet content m 5).getD (""))
    mixins := entriesOf ((capGet content m 4).getD (""))
    methods := methods
    constructors := []
    fields := []
    doc_comment := extract_doc_comment lines (line_number - 1)
    line_number := line_number }

/-- `DartAnalyzer.analyze` on file content that was read successfully. -/
def analyzeContent (file_path : String) (content : List Char) : AnalysisResult :=
  let lines := (splitOnChar newlineC content).map (fun cs => (⟨cs⟩ : String))
  { file_path := file_path
    top_level_functions := top_level_functions_of lines content
    classes := (reFindAll class_pattern content).map (buildClass lines content)
    imports := (reFindAll import_pattern content).filterMap (fun m => capGet content m 1)
    part_of := (reSearch part_of_pattern content).bind (fun m => capGet content m 1)
    errors := [] }

/-- `DartAnalyzer.analyze` with the file read modelled as `Option String`
(`none` = the `open`/`read` raised): the except-branch returns a result whose
only content is a single error string. -/
def analyzeFile (file_path : String) (contents : Option String) : AnalysisResult :=
  match contents with
  | none =>
    { file_path := file_path
      top_level_functions := []
      classes := []
      imports := []
      part_of := none
      errors := ["ファイル読み込みエラー"] }
  | some c => analyzeContent file_path c.data

/-- The batch loop of `analyze_dart.main`: one result per file, in order. -/
def batchAnalyze (files : List (String × Option String)) : List AnalysisResult :=
  files.map (fun pc => analyzeFile pc.1 pc.2)

/-! ### Test generator (`generate_tests.py`) -/

structure TestCase where
  name : String
  description : String
  category : String
  input_values : List (String × String)
  expected : String
  assertion_type : String
deriving DecidableEq, Repr

/-- One row of `TestGenerator.type_test_values`. -/
structure TypeSamples where
  normal : List String
  boundary : List String
  error : List String
  security : List String
deriving DecidableEq, Repr

def type_test_values : List (String × TypeSamples) := [
  ("String", ⟨["\x22valid string\x22", "\x22hello world\x22"],
              ["\x22\x22", "\x22 \x22", "\x22a\x22", "\x22a\x22 * 1000"],
              ["null"],
              ["\x22<script>alert(1)</script>\x22", "\x22\x27; DROP TABLE users;--\x22"]⟩),
  ("int", ⟨["1", "42", "100"], ["0", "-1", "2147483647", "-2147483648"], ["null"], []⟩),
  ("double", ⟨["1.0", "3.14", "100.5"],
              ["0.0", "-0.0", "double.infinity", "double.nan"], ["null"], []⟩),
  ("bool", ⟨["true", "false"], [], ["null"], []⟩),
  ("List", ⟨["[1, 2, 3]", "[\x22a\x22, \x22b\x22]"], ["[]", "[1]"], ["null"], []⟩),
  ("Map", ⟨["\x7b\x22key\x22: \x22value\x22\x7d", "\x7b\x22a\x22: 1, \x22b\x22: 2\x7d"],
           ["\x7b\x7d"], ["null"], []⟩)
]

/-- One value of `TestGenerator.function_patterns`; fields are the keys the
dict entries may set (values in the source are `True` or `'bool'`). -/
structure PatternConfig where
  expected_return : Option String
  test_true_false : Bool
  test_error : Bool
  test_string : Bool
  test_numeric : Bool
  test_null : Bool
  test_async : Bool
deriving DecidableEq, Repr

def emptyConfig : PatternConfig := ⟨none, false, false, false, false, false, false⟩

def function_patterns : List (String × PatternConfig) := [
  ("validate", ⟨some "bool", true, false, false, false, false, false⟩),
  ("is", ⟨some "bool", true, false, false, false, false, false⟩),
  ("has", ⟨some "bool", true, false, false, false, false, false⟩),
  ("can", ⟨some "bool", true, false, false, false, false, false⟩),
  ("check", ⟨some "bool", true, false, false, false, false, false⟩),
  ("parse", ⟨none, false, true, false, false, false, false⟩),
  ("convert", ⟨none, false, true, false, false, false, false⟩),
  ("format", ⟨none, false, false, true, false, false, false⟩),
  ("calculate", ⟨none, false, false, false, true, false, false⟩),
  ("get", ⟨none, false, false, false, false, true, false⟩),
  ("find", ⟨none, false, false, false, false, true, false⟩),
  ("fetch", ⟨none, false, true, false, false, false, true⟩),
  ("load", ⟨none, false, true, false, false, false, true⟩),
  ("save", ⟨none, false, true, false, false, false, true⟩),
  ("delete", ⟨none, false, true, false, false, false, true⟩),
  ("create", ⟨none, false, true, false, false, false, false⟩),
  ("update", ⟨none, false, true, false, false, false, false⟩)
]

/-- `patterns.update(config)`: later entries overwrite present keys; since
every present value is truthy, accumulation is field-wise. -/
def mergeConfig (a b : PatternConfig) : PatternConfig :=
  { expected_return := match b.expected_return with
      | some v => some v
      | none => a.expected_return
    test_true_false := a.test_true_false || b.test_true_false
    test_error := a.test_error || b.test_error
    test_string := a.test_string || b.test_string
    test_numeric := a.test_numeric || b.test_numeric
    test_null := a.test_null || b.test_null
    test_async := a.test_async || b.test_async }

/-- The hint-accumulation loop at the top of `infer_test_cases`. -/
def inferHints (func_lower : String) : PatternConfig :=
  function_patterns.foldl
    (fun acc pc => if containsSub func_lower pc.1 then mergeConfig acc pc.2 else acc)
    emptyConfig

/-- `param.type` with `?` removed, stripped; `'dynamic'` when absent
(`TestGenerator._generate_valid_inputs` and friends). -/
def cleanParamType (t : Option String) : String :=
  pyStrip (pyReplace (t.getD ("dynamic")) ("?") (""))

def valid_input_for (param_type : String) : String :=
  match type_test_values.find? (fun kv => kv.1 == param_type) with
  | some kv => kv.2.normal.headD ("null")
  | none =>
    if containsSub param_type ("String") then "\x22valid_value\x22"
    else if param_type = "int" ∨ param_type = "double" ∨ param_type = "num" then "1"
    else if param_type = "bool" then "true"
    else "/* TODO: 値を設定 */"

def _generate_valid_inputs (func : Function) : List (String × String) :=
  func.parameters.foldl
    (fun inputs p => dictInsert p.name (valid_input_for (cleanParamType p.type)) inputs)
    []

def invalid_input_for (param_type : String) : String :=
  if containsSub param_type ("String") then "\x22\x22"
  else if param_type = "int" ∨ param_type = "double" ∨ param_type = "num" then "-1"
  else if param_type = "bool" then "false"
  else "null"

def _generate_invalid_inputs (func : Function) : List (String × String) :=
  func.parameters.foldl
    (fun inputs p => dictInsert p.name (invalid_input_for (cleanParamType p.type)) inputs)
    []

def _generate_bool_tests (func : Function) : List TestCase :=
  [{ name := func.name ++ "_正常な入力_trueを返す"
     description := func.name ++ "が正常な入力でtrueを返すことを確認"
     category := "normal"
     input_values := _generate_valid_inputs func
     expected := "true"
     assertion_type := "isTrue" },
   { name := func.name ++ "_不正な入力_falseを返す"
     description := func.name ++ "が不正な入力でfalseを返すことを確認"
     category := "normal"
     input_values := _generate_invalid_inputs func
     expected := "false"
     assertion_type := "isFalse" }]

def _generate_normal_tests (func : Function) : List TestCase :=
  [{ name := func.name ++ "_正常系"
     description := func.name ++ "が正常に動作することを確認"
     category := "normal"
     input_values := _generate_valid_inputs func
     expected := "/* 期待値を設定 */"
     assertion_type := "equals" }]

def boundary_tests_for (fname : String) (p : Parameter) : List TestCase :=
  match p.type with
  | none => []
  | some t =>
    let param_type := pyStrip (pyReplace t ("?") (""))
    if param_type = "String" then
      [{ name := fname ++ "_" ++ p.name ++ "が空文字"
         description := p.name ++ "に空文字を渡した場合の動作確認"
         category := "boundary"
         input_values := [(p.name, "\x22\x22")]
         expected := "/* 期待値を設定 */"
         assertion_type := "equals" }]
    else if param_type = "int" ∨ param_type = "double" ∨ param_type = "num" then
      [{ name := fname ++ "_" ++ p.name ++ "がゼロ"
         description := p.name ++ "に0を渡した場合の動作確認"
         category := "boundary"
         input_values := [(p.name, "0")]
         expected := "/* 期待値を設定 */"
         assertion_type := "equals" },
       { name := fname ++ "_" ++ p.name ++ "が負数"
         description := p.name ++ "に負数を渡した場合の動作確認"
         category := "boundary"
         input_values := [(p.name, "-1")]
         expected := "/* 期待値を設定 */"
         assertion_type := "equals" }]
    else if containsSub param_type ("List") then
      [{ name := fname ++ "_" ++ p.name ++ "が空リスト"
         description := p.name ++ "に空リストを渡した場合の動作確認"
         category := "boundary"
         input_values := [(p.name, "[]")]
         expected := "/* 期待値を設定 */"
         assertion_type := "equals" }]
    else []

def _generate_boundary_tests (func : Function) : List TestCase :=
  func.parameters.flatMap (boundary_tests_for func.name)

def error_tests_for (fname : String) (p : Parameter) : List TestCase :=
  match p.type with
  | none => []
  | some t =>
    if t ≠ "" ∧ ¬containsSub t ("?") ∧ p.is_required then
      [{ name := fname ++ "_" ++ p.name ++ "がnull_例外"
         description := p.name ++ "にnullを渡すと例外が発生することを確認"
         category := "error"
         input_values := [(p.name, "null")]
         expected := "TypeError"
         assertion_type := "throws" }]
    else []

def _generate_error_tests (func : Function) : List TestCase :=
  func.parameters.flatMap (error_tests_for func.name)

def security_tests_for (fname : String) (p : Parameter) : List TestCase :=
  match p.type with
  | none => []
  | some t =>
    if t ≠ "" ∧ containsSub t ("String") then
      [{ name := fname ++ "_" ++ p.name ++ "にスクリプトタグ"
         description := p.name ++ "にXSS攻撃文字列を渡した場合の動作確認"
         category := "security"
         input_values := [(p.name, "\x22<script>alert(1)</script>\x22")]
         expected := "/* サニタイズされるか確認 */"
         assertion_type := "equals" },
       { name := fname ++ "_" ++ p.name ++ "にSQLインジェクション"
         description := p.name ++ "にSQLインジェクション文字列を渡した場合の動作確認"
         category := "security"
         input_values := [(p.name, "\x22\x27; DROP TABLE users;--\x22")]
         expected := "/* 安全に処理されるか確認 */"
         assertion_type := "equals" }]
    else []

def _generate_security_tests (func : Function) : List TestCase :=
  func.parameters.flatMap (security_tests_for func.name)

/-- `param.type and 'String' in param.type` over the parameter list. -/
def hasStringParam (func : Function) : Bool :=
  func.parameters.any (fun p =>
    match p.type with
    | some t => t ≠ "" && containsSub t ("String")
    | none => false)

/-- The conditional segments of `infer_test_cases`, in source order. -/
def boolTestsPart (func : Function) : List TestCase :=
  if func.return_type = some "bool" ∨ (inferHints (pyToLower func.name)).test_true_false
  then _generate_bool_tests func else []

def errorTestsPart (func : Function) : List TestCase :=
  if (inferHints (pyToLower func.name)).test_error ∨ func.is_async
  then _generate_error_tests func else []

def securityTestsPart (func : Function) : List TestCase :=
  if hasStringParam func then _generate_security_tests func else []

/-- `TestGenerator.infer_test_cases`: the fixed-order concatenation
bool → normal → boundary → error → security. -/
def infer_test_cases (func : Function) : List TestCase :=
  boolTestsPart func ++ _generate_normal_tests func ++
  _generate_boundary_tests func ++ errorTestsPart func ++ securityTestsPart func

/-- `TestGenerator.get_test_file_path` (the `Path(...)`/`str(...)` round trip
is the identity on the already-normalised paths considered here). -/
def get_test_file_path (source_path : String) : String :=
  if containsSub source_path ("lib/") then
    let relative : String :=
      ⟨(splitOnSubList ("lib/").data source_path.data.length source_path.data).getLastD []⟩
    "test/" ++ pyReplace relative (".dart") ("_test.dart")
  else
    pyReplace source_path (".dart") ("_test.dart")

/-- The write phase of `generate_tests.main` (non-dry-run part modelled with
the output file system as `Option String`): returns the file's content after
the call and the process exit code. -/
def writeTestOutput (dry_run force : Bool) (existing : Option String)
    (test_code : String) : Option String × Nat :=
  if dry_run then (existing, 0)
  else if existing.isSome && !force then (existing, 1)
  else (some test_code, 0)

/-! ### Claim-side auxiliary definitions -/

/-- Scenario A input: a single top-level `bool isValidEmail(String email)`. -/
def scenarioAContent : String :=
  "bool isValidEmail(String email) \x7b\n  return true;\n\x7d\n"

/-- Whether the `required` keyword (in the form the source regex recognises:
the literal word followed by whitespace) is present at the start of a
parameter entry. -/
def requiredKeywordPresent (entry : String) : Bool :=
  let cs := (pyStrip entry).data
  listStartsWith ("required").data cs &&
    (match cs.drop 8 with
     | c :: _ => pyIsSpace c
     | [] => false)

/-- The derived-path computation as the C9 claim words it: the designated
source-tree prefix `lib/` is replaced (first occurrence) by the test-tree
prefix `test/`, and the file-extension suffix `.dart` is renamed to
`_test.dart`; when `lib/` is absent only the suffix rename applies. -/
def claimDerivedTestPath (p : String) : String :=
  let renameSuffix := fun (s : String) =>
    if strEndsWith s (".dart") then strDropRight s 5 ++ "_test.dart" else s
  if containsSub p ("lib/") then renameSuffix (replaceFirst p ("lib/") ("test/"))
  else renameSuffix p

/-! ### Claim C1 -/

/-- Claim C1 (code evaluation at the failing input): on a file containing
exactly `bool isValidEmail(String email) { ... }`, `analyze` does produce one
top-level function with `return_type = "bool"`, but the greedy type group of
`param_pattern` swallows `String emai` and leaves only `l` as the parameter
name, so the parameter's type is `String emai`, the `String`-boundary test is
never generated, and inference yields 5 test cases (isTrue, isFalse, normal,
XSS security, SQL-injection security) instead of the 6 the claim requires. -/
theorem c1_scenarioA_eval :
    ((analyzeContent ("lib/validator.dart") scenarioAContent.data).top_level_functions.length = 1) ∧
    ((analyzeContent ("lib/validator.dart") scenarioAContent.data).top_level_functions.map
      (fun f => f.return_type) = [some "bool"]) ∧
    ((analyzeContent ("lib/validator.dart") scenarioAContent.data).top_level_functions.map
      (fun f => f.parameters) =
      [[{ name := "l", type := some "String emai", is_required := true,
          is_named := false, default_value := none }]]) ∧
    ((analyzeContent ("lib/validator.dart") scenarioAContent.data).top_level_functions.map
      (fun f => (infer_test_cases f).map (fun tc => (tc.category, tc.assertion_type))) =
      [[("normal", "isTrue"), ("normal", "isFalse"), ("normal", "equals"),
        ("security", "equals"), ("security", "equals")]]) ∧
    ((analyzeContent ("lib/validator.dart") scenarioAContent.data).top_level_functions.map
      (fun f => (infer_test_cases f).length) = [5]) ∧
    ((analyzeContent ("lib/validator.dart") scenarioAContent.data).top_level_functions.map
      (fun f => (infer_test_cases f).countP (fun tc => tc.category == "boundary")) = [0]) := by
  decide

/-! ### Claim C7 -/

/-- Claim C7: an unreadable file (read modelled as `none`) yields exactly one
error and empty collections with no `part_of`, and the batch loop over one
unreadable and one valid file yields two results with the valid one fully
populated (its single function extracted, no errors). -/
theorem c7_read_error :
    ((analyzeFile ("broken.dart") none).errors.length = 1) ∧
    ((analyzeFile ("broken.dart") none).top_level_functions = []) ∧
    ((analyzeFile ("broken.dart") none).classes = []) ∧
    ((analyzeFile ("broken.dart") none).imports = []) ∧
    ((analyzeFile ("broken.dart") none).part_of = none) ∧
    ((batchAnalyze [("broken.dart", none), ("ok.dart", some scenarioAContent)]).length = 2) ∧
    (batchAnalyze [("broken.dart", none), ("ok.dart", some scenarioAContent)] =
      [analyzeFile ("broken.dart") none, analyzeFile ("ok.dart") (some scenarioAContent)]) ∧
    ((analyzeFile ("ok.dart") (some scenarioAContent)).top_level_functions.length = 1) ∧
    ((analyzeFile ("ok.dart") (some scenarioAContent)).errors = []) := by
  decide

/-! ### Claim C8 -/

/-- Claim C8: when the target output file already exists (`existing` is
`some`), the overwrite flag is off and this is not a dry run, the generator
writes nothing — the file's content is returned unchanged — and signals exit
code 1 to the CLI boundary. -/
theorem c8_no_overwrite (existing test_code : String) :
    writeTestOutput false false (some existing) test_code = (some existing, 1) := by
  simp [writeTestOutput]

/-! ### Claim C2 — counterexample -/

/-- Claim C2 is false as stated: on `"{a"` no closing delimiter exists
(`matchingBrace` finds none), yet the scan result used by the callers is the
opening offset 0, not the scan boundary (the text has length 2, last index 1),
so the delimited range is not "the whole rest of the file". -/
theorem c2_counterexample :
    (matchingBrace ("\x7ba").data 0 = none) ∧
    (bodyEndPos ("\x7ba").data 0 = 0) ∧
    (("\x7ba").data.length = 2) ∧
    ((0 : Nat) ≠ 2) ∧ ((0 : Nat) ≠ 1) := by
  decide

/-! ### Claim C3 — counterexample -/

/-- Claim C3 is false as stated: the brace-group entry `int requiredCount`
does not carry the `required` keyword, yet the produced parameter has
`is_required = true`, because the source tests `'required' in part`
(substring containment), not keyword presence. -/
theorem c3_counterexample :
    (namedEntriesOf ("\x7bint requiredCount\x7d") = ["int requiredCount"]) ∧
    (requiredKeywordPresent ("int requiredCount") = false) ∧
    ((parse_parameters ("\x7bint requiredCount\x7d")).map
      (fun p => (p.is_required, p.is_named)) = [(true, true)]) := by
  decide

/-! ### Claim C4 — counterexample -/

/-- Claim C4 is false as stated: with a doc comment separated from the
declaration (line index 2) by a blank line, the walker skips the blank line
and still associates the comment, rather than stopping and discarding. -/
theorem c4_counterexample :
    (pyStrip ((["/// doc", "", "f"] : List String).getD 1 ("")) = "") ∧
    (extract_doc_comment ["/// doc", "", "f"] 2 = some "doc") := by
  decide

/-! ### Claim C9 — counterexample -/

/-- Claim C9 is false as stated: on `foo/lib/bar.dart` the code does not
replace the source-tree prefix in place (which would give
`foo/test/bar_test.dart`) but drops everything up to the last `lib/`; and on
`mylib/x.dart` the source-tree prefix `lib/` is absent as a path component
yet the result is not the in-place suffix rename (`mylib/x_test.dart`),
because the code tests substring containment. -/
theorem c9_counterexample :
    (get_test_file_path ("foo/lib/bar.dart") = "test/bar_test.dart") ∧
    (claimDerivedTestPath ("foo/lib/bar.dart") = "foo/test/bar_test.dart") ∧
    (("test/bar_test.dart" : String) ≠ "foo/test/bar_test.dart") ∧
    (get_test_file_path ("mylib/x.dart") = "test/x_test.dart") ∧
    (("test/x_test.dart" : String) ≠ "mylib/x_test.dart") := by
  decide

/-! ### Claim C2 — amended -/

/-- Claim C2 (amended): when no matching closing delimiter exists
(`matchingBrace` returns `none`), each scan falls back to its initial value —
the body-end offset is the opening offset itself and the class-range end is
the header end — so the range degenerates instead of covering the rest of the
file; the scans are total functions and never raise. -/
theorem c2_amended (cs : List Char) (p e : Nat)
    (h1 : matchingBrace cs p = none) (h2 : matchingBrace cs (e - 1) = none) :
    bodyEndPos cs p = p ∧ classRangeStop cs e = e := by
  constructor
  · unfold bodyEndPos
    rw [h1]
    rfl
  · unfold classRangeStop
    rw [h2]

theorem c2_amended_witness :
    (matchingBrace ("\x7ba").data 0 = none) ∧
    (matchingBrace ("\x7ba").data (1 - 1) = none) ∧
    (bodyEndPos ("\x7ba").data 0 = 0 ∧ classRangeStop ("\x7ba").data 1 = 1) :=
  ⟨by decide, by decide, c2_amended ("\x7ba").data 0 1 (by decide) (by decide)⟩

/-! ### Claim C5 -/

/-- Claim C5: a function-shaped match whose start offset lies strictly inside
any matched class's body range is removed by the containment filter and hence
absent from the matches that feed `top_level_functions`. -/
theorem c5_exclusion (content : List Char) (m : RMatch) (r : Nat × Nat)
    (hm : m ∈ functionMatches content) (hr : r ∈ classRanges content)
    (h1 : r.1 < m.start) (h2 : m.start < r.2) :
    m ∉ topLevelMatches content := by
  intro hmem
  unfold topLevelMatches at hmem
  rw [List.mem_filter] at hmem
  have hany := hmem.2
  simp only [Bool.not_eq_true', List.any_eq_false, decide_eq_true_eq] at hany
  exact hany r hr ⟨Nat.le_of_lt h1, h2⟩

/-- A class containing one method-shaped match, used to instantiate C5. -/
def scenarioC5Content : String := "class A\x7b\nf() \x7b\x7d\n\x7d"

theorem c5_witness :
    ((functionMatches scenarioC5Content.data).headD ⟨0, 0, []⟩ ∈
      functionMatches scenarioC5Content.data) ∧
    (((0 : Nat), (17 : Nat)) ∈ classRanges scenarioC5Content.data) ∧
    ((0 : Nat) < ((functionMatches scenarioC5Content.data).headD ⟨0, 0, []⟩).start) ∧
    (((functionMatches scenarioC5Content.data).headD ⟨0, 0, []⟩).start < 17) ∧
    ((functionMatches scenarioC5Content.data).headD ⟨0, 0, []⟩ ∉
      topLevelMatches scenarioC5Content.data) :=
  ⟨by decide, by decide, by decide, by decide,
   c5_exclusion scenarioC5Content.data _ ((0 : Nat), (17 : Nat))
     (by decide) (by decide) (by decide) (by decide)⟩

/-! ### Claim C3 — amended -/

/-- Claim C3 (amended): positional entries always yield `is_required = true`;
a brace-group entry yields `is_required = true` exactly when the substring
`required` occurs anywhere in the entry's text (not only when the `required`
keyword is present); bracket entries always yield `is_required = false`. -/
theorem c3_amended (part : String) :
    (∀ p, parsePositionalEntry part = some p →
      p.is_required = true ∧ p.is_named = false) ∧
    (∀ p, parseNamedEntry part = some p →
      p.is_required = containsSub part ("required") ∧ p.is_named = true) ∧
    (∀ p, parseOptionalEntry part = some p →
      p.is_required = false ∧ p.is_named = false) := by
  refine ⟨?_, ?_, ?_⟩ <;> intro p h
  · unfold parsePositionalEntry at h
    rcases Option.map_eq_some'.mp h with ⟨ec, _, rfl⟩
    exact ⟨rfl, rfl⟩
  · unfold parseNamedEntry at h
    rcases Option.map_eq_some'.mp h with ⟨ec, _, rfl⟩
    exact ⟨rfl, rfl⟩
  · unfold parseOptionalEntry at h
    rcases Option.map_eq_some'.mp h with ⟨ec, _, rfl⟩
    exact ⟨rfl, rfl⟩

theorem c3_amended_witness :
    (parsePositionalEntry ("int a") =
      some ⟨"a", some "int", true, false, none⟩) ∧
    ((⟨"a", some "int", true, false, none⟩ : Parameter).is_required = true ∧
      (⟨"a", some "int", true, false, none⟩ : Parameter).is_named = false) ∧
    (parseNamedEntry ("int requiredCount") =
      some ⟨"t", some "int Coun", true, true, none⟩) ∧
    ((⟨"t", some "int Coun", true, true, none⟩ : Parameter).is_required =
        containsSub ("int requiredCount") ("required") ∧
      (⟨"t", some "int Coun", true, true, none⟩ : Parameter).is_named = true) ∧
    (parseOptionalEntry ("int c") =
      some ⟨"c", some "int", false, false, none⟩) ∧
    ((⟨"c", some "int", false, false, none⟩ : Parameter).is_required = false ∧
      (⟨"c", some "int", false, false, none⟩ : Parameter).is_named = false) :=
  ⟨by decide, (c3_amended ("int a")).1 _ (by decide),
   by decide, (c3_amended ("int requiredCount")).2.1 _ (by decide),
   by decide, (c3_amended ("int c")).2.2 _ (by decide)⟩

/-! ### Claim C6 -/

lemma mem_positionalParams {s : String} {p : Parameter}
    (h : p ∈ positionalParams s) : p.is_required = true ∧ p.is_named = false := by
  unfold positionalParams at h
  rw [List.mem_filterMap] at h
  obtain ⟨part, _, hp⟩ := h
  unfold parsePositionalEntry at hp
  rcases Option.map_eq_some'.mp hp with ⟨ec, _, rfl⟩
  exact ⟨rfl, rfl⟩

lemma mem_namedParams {s : String} {p : Parameter}
    (h : p ∈ namedParams s) : p.is_named = true := by
  unfold namedParams at h
  rw [List.mem_filterMap] at h
  obtain ⟨part, _, hp⟩ := h
  unfold parseNamedEntry at hp
  rcases Option.map_eq_some'.mp hp with ⟨ec, _, rfl⟩
  rfl

lemma mem_optionalParams {s : String} {p : Parameter}
    (h : p ∈ optionalParams s) : p.is_required = false ∧ p.is_named = false := by
  unfold optionalParams at h
  rcases hb : bracketGroupStr s with _ | g
  · rw [hb] at h; simp at h
  · rw [hb] at h
    rw [List.mem_filterMap] at h
    obtain ⟨part, _, hp⟩ := h
    unfold parseOptionalEntry at hp
    rcases Option.map_eq_some'.mp hp with ⟨ec, _, rfl⟩
    exact ⟨rfl, rfl⟩

lemma parse_parameters_cases {s : String} {p : Parameter}
    (h : p ∈ parse_parameters s) :
    p ∈ positionalParams s ∨ p ∈ namedParams s ∨ p ∈ optionalParams s := by
  unfold parse_parameters at h
  split at h
  · simp at h
  · rw [List.mem_append, List.mem_append] at h
    tauto

/-- Claim C6: a parsed parameter is `is_named` iff it came from the
brace-group; it is optional-and-unnamed iff it came from the bracket-group;
and every plain positional parameter is required and unnamed. -/
theorem c6_param_groups (s : String) (p : Parameter)
    (hp : p ∈ parse_parameters s) :
    (p.is_named = true ↔ p ∈ namedParams s) ∧
    ((p.is_required = false ∧ p.is_named = false) ↔ p ∈ optionalParams s) ∧
    (p ∈ positionalParams s → p.is_required = true ∧ p.is_named = false) := by
  have hsub := parse_parameters_cases hp
  refine ⟨⟨?_, fun h => mem_namedParams h⟩,
          ⟨?_, fun h => mem_optionalParams h⟩,
          fun h => mem_positionalParams h⟩
  · intro hn
    rcases hsub with h | h | h
    · rw [(mem_positionalParams h).2] at hn; cases hn
    · exact h
    · rw [(mem_optionalParams h).2] at hn; cases hn
  · rintro ⟨hr, hn⟩
    rcases hsub with h | h | h
    · rw [(mem_positionalParams h).1] at hr; cases hr
    · rw [mem_namedParams h] at hn; cases hn
    · exact h

theorem c6_witness :
    ((⟨"b", some "int", true, true, none⟩ : Parameter) ∈
      parse_parameters ("int a, \x7brequired int b\x7d, [int c]")) ∧
    (((⟨"b", some "int", true, true, none⟩ : Parameter).is_named = true ↔
        (⟨"b", some "int", true, true, none⟩ : Parameter) ∈
          namedParams ("int a, \x7brequired int b\x7d, [int c]")) ∧
      (((⟨"b", some "int", true, true, none⟩ : Parameter).is_required = false ∧
          (⟨"b", some "int", true, true, none⟩ : Parameter).is_named = false) ↔
        (⟨"b", some "int", true, true, none⟩ : Parameter) ∈
          optionalParams ("int a, \x7brequired int b\x7d, [int c]")) ∧
      ((⟨"b", some "int", true, true, none⟩ : Parameter) ∈
          positionalParams ("int a, \x7brequired int b\x7d, [int c]") →
        (⟨"b", some "int", true, true, none⟩ : Parameter).is_required = true ∧
          (⟨"b", some "int", true, true, none⟩ : Parameter).is_named = false)) :=
  ⟨by decide, c6_param_groups ("int a, \x7brequired int b\x7d, [int c]") _ (by decide)⟩

/-! ### Claim C4 — amended -/

/-- Claim C4 (amended): the upward walk collects marker-stripped doc-comment
lines, passes over (rather than stops at) blank lines and
block-comment-continuation lines, and stops collecting at the first other
line; in particular a doc-comment block separated from the declaration by a
blank line IS associated with it, and a declaration directly preceded by a
plain code line gets no doc comment. -/
theorem c4_amended (lines : List String) (i : Nat) :
    (pyStrip (lines.getD i ("")) = "" →
      extract_doc_comment lines (i + 1) = extract_doc_comment lines i) ∧
    (∀ l, pyStrip (lines.getD i ("")) = l → l ≠ "" →
      strStartsWith l ("///") = false → strStartsWith l ("/*") = false →
      strEndsWith l ("*/") = false → strStartsWith l ("*") = false →
      extract_doc_comment lines (i + 1) = none) ∧
    (∀ l, pyStrip (lines.getD i ("")) = l →
      strStartsWith l ("///") = false →
      (strStartsWith l ("/*") = true ∨ strEndsWith l ("*/") = true ∨
        strStartsWith l ("*") = true) →
      extract_doc_comment lines (i + 1) = extract_doc_comment lines i) := by
  refine ⟨?_, ?_, ?_⟩
  case refine_3 =>
    intro l hl hdoc hbc
    have hwalk : docWalk lines (i + 1) [] = docWalk lines i [] := by
      conv_lhs => rw [docWalk]
      rw [hl]
      rcases hbc with h | h | h <;> simp [hdoc, h]
    unfold extract_doc_comment
    rw [hwalk]
  case refine_1 =>
    intro hblank
    have e1 : strStartsWith "" ("///") = false := by decide
    have e2 : strStartsWith "" ("/*") = false := by decide
    have e3 : strEndsWith "" ("*/") = false := by decide
    have e4 : strStartsWith "" ("*") = false := by decide
    have hwalk : docWalk lines (i + 1) [] = docWalk lines i [] := by
      conv_lhs => rw [docWalk]
      rw [hblank]
      simp [e1, e2, e3, e4]
    unfold extract_doc_comment
    rw [hwalk]
  case refine_2 =>
    intro l hl hne h1 h2 h3 h4
    have hwalk : docWalk lines (i + 1) [] = [] := by
      conv_lhs => rw [docWalk]
      rw [hl]
      simp [h1, h2, h3, h4, hne]
    unfold extract_doc_comment
    rw [hwalk]
    rfl

theorem c4_amended_witness :
    (pyStrip ((["x", ""] : List String).getD 1 ("")) = "") ∧
    (extract_doc_comment ["x", ""] 2 = extract_doc_comment ["x", ""] 1) ∧
    (extract_doc_comment ["x", ""] 1 = none) ∧
    (pyStrip ((["/// d", "* b", "f"] : List String).getD 1 ("")) = "* b") ∧
    (extract_doc_comment ["/// d", "* b", "f"] 2 =
      extract_doc_comment ["/// d", "* b", "f"] 1) ∧
    (extract_doc_comment ["/// d", "* b", "f"] 1 = some "d") :=
  ⟨by decide, (c4_amended ["x", ""] 1).1 (by decide),
   (c4_amended ["x", ""] 0).2.1 "x" (by decide) (by decide) (by decide) (by decide)
     (by decide) (by decide),
   by decide,
   (c4_amended ["/// d", "* b", "f"] 1).2.2 "* b" (by decide) (by decide)
     (Or.inr (Or.inr (by decide))),
   by decide⟩

/-! ### Claim C10 -/

/-- The test emitted by `_generate_normal_tests`. -/
def normalTestOf (f : Function) : TestCase :=
  { name := f.name ++ "_正常系"
    description := f.name ++ "が正常に動作することを確認"
    category := "normal"
    input_values := _generate_valid_inputs f
    expected := "/* 期待値を設定 */"
    assertion_type := "equals" }

/-- The predicate singling out the generic normal test of C10. -/
def isGenericNormal (tc : TestCase) : Bool :=
  tc.category == "normal" && tc.assertion_type == "equals"

lemma boundary_tests_for_category {fn : String} {p : Parameter} {tc : TestCase}
    (h : tc ∈ boundary_tests_for fn p) : tc.category = "boundary" := by
  unfold boundary_tests_for at h
  split at h
  · simp at h
  · simp only [] at h
    split at h
    · simp only [List.mem_singleton] at h; subst h; rfl
    · split at h
      · simp only [List.mem_cons, List.not_mem_nil, or_false] at h
        rcases h with rfl | rfl <;> rfl
      · split at h
        · simp only [List.mem_singleton] at h; subst h; rfl
        · simp at h

lemma error_tests_for_category {fn : String} {p : Parameter} {tc : TestCase}
    (h : tc ∈ error_tests_for fn p) : tc.category = "error" := by
  unfold error_tests_for at h
  split at h
  · simp at h
  · split at h
    · simp only [List.mem_singleton] at h; subst h; rfl
    · simp at h

lemma security_tests_for_category {fn : String} {p : Parameter} {tc : TestCase}
    (h : tc ∈ security_tests_for fn p) : tc.category = "security" := by
  unfold security_tests_for at h
  split at h
  · simp at h
  · split at h
    · simp only [List.mem_cons, List.not_mem_nil, or_false] at h
      rcases h with rfl | rfl <;> rfl
    · simp at h

lemma tail_parts_category {f : Function} {tc : TestCase}
    (h : tc ∈ _generate_boundary_tests f ++ errorTestsPart f ++ securityTestsPart f) :
    tc.category ≠ "normal" := by
  rw [List.mem_append, List.mem_append] at h
  rcases h with (h | h) | h
  · rw [_generate_boundary_tests, List.mem_flatMap] at h
    obtain ⟨p, _, hp⟩ := h
    rw [boundary_tests_for_category hp]
    decide
  · rw [errorTestsPart] at h
    split at h
    · rw [_generate_error_tests, List.mem_flatMap] at h
      obtain ⟨p, _, hp⟩ := h
      rw [error_tests_for_category hp]
      decide
    · simp at h
  · rw [securityTestsPart] at h
    split at h
    · rw [_generate_security_tests, List.mem_flatMap] at h
      obtain ⟨p, _, hp⟩ := h
      rw [security_tests_for_category hp]
      decide
    · simp at h

lemma countP_boolTestsPart (f : Function) :
    (boolTestsPart f).countP isGenericNormal = 0 := by
  unfold boolTestsPart
  split
  · rfl
  · rfl

lemma countP_tail_parts (f : Function) :
    (_generate_boundary_tests f ++ errorTestsPart f ++ securityTestsPart f).countP
      isGenericNormal = 0 := by
  rw [List.countP_eq_zero]
  intro tc h
  have := tail_parts_category h
  unfold isGenericNormal
  simp only [Bool.and_eq_true, beq_iff_eq]
  rintro ⟨h1, _⟩
  exact this h1

/-- Claim C10: for every function descriptor, inference returns a non-empty
list containing exactly one generic normal test (category `normal`, assertion
`equals`, placeholder expected value), positioned immediately after the
boolean tests (all of which assert `isTrue` or `isFalse`) and before the
boundary, error and security tests (none of which has category `normal`). -/
theorem c10_normal_test (f : Function) :
    (infer_test_cases f ≠ []) ∧
    ((infer_test_cases f).countP isGenericNormal = 1) ∧
    (infer_test_cases f =
      boolTestsPart f ++ normalTestOf f ::
        (_generate_boundary_tests f ++ errorTestsPart f ++ securityTestsPart f)) ∧
    ((normalTestOf f).category = "normal" ∧
      (normalTestOf f).assertion_type = "equals" ∧
      (normalTestOf f).expected = "/* 期待値を設定 */") ∧
    (∀ tc ∈ boolTestsPart f,
      tc.assertion_type = "isTrue" ∨ tc.assertion_type = "isFalse") ∧
    (∀ tc ∈ _generate_boundary_tests f ++ errorTestsPart f ++ securityTestsPart f,
      tc.category ≠ "normal") := by
  have hshape : infer_test_cases f =
      boolTestsPart f ++ normalTestOf f ::
        (_generate_boundary_tests f ++ errorTestsPart f ++ securityTestsPart f) := by
    unfold infer_test_cases _generate_normal_tests normalTestOf
    simp [List.append_assoc]
  refine ⟨?_, ?_, hshape, ⟨rfl, rfl, rfl⟩, ?_, fun tc h => tail_parts_category h⟩
  · rw [hshape]
    intro hnil
    rcases List.append_eq_nil.mp hnil with ⟨_, h2⟩
    cases h2
  · rw [hshape, List.countP_append, List.countP_cons, countP_boolTestsPart,
        countP_tail_parts]
    rfl
  · intro tc h
    unfold boolTestsPart at h
    split at h
    · unfold _generate_bool_tests at h
      simp only [List.mem_cons, List.not_mem_nil, or_false] at h
      rcases h with rfl | rfl
      · left; rfl
      · right; rfl
    · simp at h

/-- Concrete instantiation target for the C10 witness. -/
def c10Func : Function :=
  ⟨"isGood", some "bool", [⟨"n", some "int", true, false, none⟩],
   false, false, false, none, 1, ""⟩

theorem c10_witness :
    ((⟨"isGood_正常な入力_trueを返す", "isGoodが正常な入力でtrueを返すことを確認",
        "normal", [("n", "1")], "true", "isTrue"⟩ : TestCase) ∈ boolTestsPart c10Func) ∧
    ((⟨"isGood_正常な入力_trueを返す", "isGoodが正常な入力でtrueを返すことを確認",
        "normal", [("n", "1")], "true", "isTrue"⟩ : TestCase).assertion_type = "isTrue" ∨
      (⟨"isGood_正常な入力_trueを返す", "isGoodが正常な入力でtrueを返すことを確認",
        "normal", [("n", "1")], "true", "isTrue"⟩ : TestCase).assertion_type = "isFalse") ∧
    ((⟨"isGood_nがゼロ", "nに0を渡した場合の動作確認", "boundary",
        [("n", "0")], "/* 期待値を設定 */", "equals"⟩ : TestCase) ∈
      _generate_boundary_tests c10Func ++ errorTestsPart c10Func ++
        securityTestsPart c10Func) ∧
    ((⟨"isGood_nがゼロ", "nに0を渡した場合の動作確認", "boundary",
        [("n", "0")], "/* 期待値を設定 */", "equals"⟩ : TestCase).category ≠ "normal") ∧
    (infer_test_cases c10Func ≠ []) ∧
    ((infer_test_cases c10Func).countP isGenericNormal = 1) :=
  ⟨by decide,
   (c10_normal_test c10Func).2.2.2.2.1 _ (by decide),
   by decide,
   (c10_normal_test c10Func).2.2.2.2.2 _ (by decide),
   (c10_normal_test c10Func).1,
   (c10_normal_test c10Func).2.1⟩

/-! ### Claim C9 — amended

`str.split(sub)[-1]` is characterised: the last piece is a suffix of the
input preceded by an occurrence of `sub`, and itself contains no further
occurrence of `sub`.  This makes the "suffix after the last occurrence"
reading of the code's behaviour a theorem rather than a restatement. -/

lemma splitOnSubList_ne_nil (sub : List Char) (fuel : Nat) (cs : List Char) :
    splitOnSubList sub fuel cs ≠ [] := by
  cases cs with
  | nil => simp [splitOnSubList]
  | cons c rest =>
    cases fuel with
    | zero => simp [splitOnSubList]
    | succ n =>
      unfold splitOnSubList
      split <;> simp

lemma listStartsWith_decomp : ∀ (sub cs : List Char),
    listStartsWith sub cs = true → cs = sub ++ cs.drop sub.length := by
  intro sub
  induction sub with
  | nil => intro cs _; simp
  | cons a as ih =>
    intro cs h
    cases cs with
    | nil => simp [listStartsWith] at h
    | cons b bs =>
      simp only [listStartsWith, Bool.and_eq_true, decide_eq_true_eq] at h
      obtain ⟨hab, h2⟩ := h
      subst hab
      simpa using ih bs h2

lemma splitOnSubList_of_not_contains (sub : List Char) :
    ∀ (fuel : Nat) (cs : List Char), containsSubList sub cs = false →
      splitOnSubList sub fuel cs = [cs] := by
  intro fuel
  induction fuel with
  | zero =>
    intro cs _
    cases cs <;> simp [splitOnSubList]
  | succ n ih =>
    intro cs h
    cases cs with
    | nil => simp [splitOnSubList]
    | cons c rest =>
      have h' := h
      unfold containsSubList at h'
      rw [Bool.or_eq_false_iff] at h'
      unfold splitOnSubList
      rw [if_neg (by simp [h'.1])]
      rw [ih rest h'.2]
      simp

lemma splitOnSubList_length_two (sub : List Char) (hsub : sub ≠ []) :
    ∀ (fuel : Nat) (cs : List Char), cs.length ≤ fuel →
      containsSubList sub cs = true →
      2 ≤ (splitOnSubList sub fuel cs).length := by
  intro fuel
  induction fuel with
  | zero =>
    intro cs hlen hc
    have hnil : cs = [] := List.length_eq_zero.mp (Nat.le_zero.mp hlen)
    subst hnil
    cases sub with
    | nil => exact absurd rfl hsub
    | cons a as => simp [containsSubList, listStartsWith] at hc
  | succ n ih =>
    intro cs hlen hc
    cases cs with
    | nil =>
      cases sub with
      | nil => exact absurd rfl hsub
      | cons a as => simp [containsSubList, listStartsWith] at hc
    | cons c rest =>
      unfold splitOnSubList
      by_cases hpre : listStartsWith sub (c :: rest) = true
      · rw [if_pos (by simp [hpre, hsub])]
        have hne := splitOnSubList_ne_nil sub n ((c :: rest).drop sub.length)
        have h1 : 1 ≤ (splitOnSubList sub n ((c :: rest).drop sub.length)).length := by
          cases hx : splitOnSubList sub n ((c :: rest).drop sub.length) with
          | nil => exact absurd hx hne
          | cons _ _ => simp
        simp only [List.length_cons]
        omega
      · rw [if_neg (by simp [hpre])]
        have hcrest : containsSubList sub rest = true := by
          unfold containsSubList at hc
          simp only [Bool.or_eq_true] at hc
          rcases hc with hx | hx
          · exact absurd hx hpre
          · exact hx
        have hlen2 : rest.length ≤ n := by
          simp only [List.length_cons] at hlen
          omega
        have hr := ih rest hlen2 hcrest
        simp only [List.length_cons, List.length_tail]
        omega

lemma getLastD_irrel {α : Type} (l : List α) (h : l ≠ []) (d₁ d₂ : α) :
    l.getLastD d₁ = l.getLastD d₂ := by
  cases l with
  | nil => exact absurd rfl h
  | cons a as => rw [List.getLastD_cons, List.getLastD_cons]

lemma splitOnSubList_last_decomp (sub : List Char) (hsub : sub ≠ []) :
    ∀ (fuel : Nat) (cs : List Char), cs.length ≤ fuel →
      containsSubList sub cs = true →
      ∃ pre, cs = pre ++ sub ++ (splitOnSubList sub fuel cs).getLastD [] ∧
        containsSubList sub ((splitOnSubList sub fuel cs).getLastD []) = false := by
  intro fuel
  induction fuel with
  | zero =>
    intro cs hlen hc
    have hnil : cs = [] := List.length_eq_zero.mp (Nat.le_zero.mp hlen)
    subst hnil
    cases sub with
    | nil => exact absurd rfl hsub
    | cons a as => simp [containsSubList, listStartsWith] at hc
  | succ n ih =>
    intro cs hlen hc
    cases cs with
    | nil =>
      cases sub with
      | nil => exact absurd rfl hsub
      | cons a as => simp [containsSubList, listStartsWith] at hc
    | cons c rest =>
      by_cases hpre : listStartsWith sub (c :: rest) = true
      · have hdecomp := listStartsWith_decomp sub (c :: rest) hpre
        have hs1 : 1 ≤ sub.length := by
          cases sub with
          | nil => exact absurd rfl hsub
          | cons _ _ => simp
        have hlen2 : ((c :: rest).drop sub.length).length ≤ n := by
          simp only [List.length_drop, List.length_cons]
          simp only [List.length_cons] at hlen
          omega
        have hsplit : splitOnSubList sub (n + 1) (c :: rest) =
            [] :: splitOnSubList sub n ((c :: rest).drop sub.length) := by
          conv_lhs => rw [splitOnSubList]
          rw [if_pos (by simp [hpre, hsub])]
        by_cases hct : containsSubList sub ((c :: rest).drop sub.length) = true
        · obtain ⟨pre2, heq2, hnc2⟩ := ih ((c :: rest).drop sub.length) hlen2 hct
          have hlast : ([] :: splitOnSubList sub n ((c :: rest).drop sub.length)).getLastD
              ([] : List Char) =
              (splitOnSubList sub n ((c :: rest).drop sub.length)).getLastD [] := by
            rw [List.getLastD_cons]
          refine ⟨sub ++ pre2, ?_, ?_⟩
          · rw [hsplit, hlast]
            calc c :: rest = sub ++ (c :: rest).drop sub.length := hdecomp
              _ = sub ++ (pre2 ++ sub ++
                    (splitOnSubList sub n ((c :: rest).drop sub.length)).getLastD []) := by
                  rw [← heq2]
              _ = (sub ++ pre2) ++ sub ++
                    (splitOnSubList sub n ((c :: rest).drop sub.length)).getLastD [] := by
                  simp [List.append_assoc]
          · rw [hsplit, hlast]
            exact hnc2
        · have hctf : containsSubList sub ((c :: rest).drop sub.length) = false := by
            cases hx : containsSubList sub ((c :: rest).drop sub.length) with
            | false => rfl
            | true => exact absurd hx hct
          refine ⟨[], ?_, ?_⟩
          · rw [hsplit, splitOnSubList_of_not_contains sub n _ hctf]
            simpa using hdecomp
          · rw [hsplit, splitOnSubList_of_not_contains sub n _ hctf]
            simpa using hctf
      · have hcrest : containsSubList sub rest = true := by
          unfold containsSubList at hc
          simp only [Bool.or_eq_true] at hc
          rcases hc with hx | hx
          · exact absurd hx hpre
          · exact hx
        have hlen2 : rest.length ≤ n := by
          simp only [List.length_cons] at hlen
          omega
        obtain ⟨pre2, heq2, hnc2⟩ := ih rest hlen2 hcrest
        have hsplit : splitOnSubList sub (n + 1) (c :: rest) =
            (c :: (splitOnSubList sub n rest).headD []) ::
              (splitOnSubList sub n rest).tail := by
          conv_lhs => rw [splitOnSubList]
          rw [if_neg (by simp [hpre])]
        have h2 := splitOnSubList_length_two sub hsub n rest hlen2 hcrest
        obtain ⟨rh, rt, hr⟩ : ∃ rh rt, splitOnSubList sub n rest = rh :: rt := by
          cases hx : splitOnSubList sub n rest with
          | nil => exact absurd hx (splitOnSubList_ne_nil _ _ _)
          | cons rh rt => exact ⟨rh, rt, rfl⟩
        have hrt : rt ≠ [] := by
          intro hnil
          rw [hr, hnil] at h2
          simp at h2
        have hlast : (splitOnSubList sub (n + 1) (c :: rest)).getLastD [] =
            (splitOnSubList sub n rest).getLastD [] := by
          rw [hsplit, hr]
          simp only [List.headD_cons, List.tail_cons]
          rw [List.getLastD_cons, List.getLastD_cons]
          exact getLastD_irrel rt hrt _ _
        refine ⟨c :: pre2, ?_, ?_⟩
        · rw [hlast]
          calc c :: rest
              = c :: (pre2 ++ sub ++ (splitOnSubList sub n rest).getLastD []) := by
                rw [← heq2]
            _ = (c :: pre2) ++ sub ++ (splitOnSubList sub n rest).getLastD [] := by
                simp
        · rw [hlast]
          exact hnc2

/-- Claim C9 (amended): when the source-tree marker `lib/` occurs nowhere in
the path, the derived path is the whole path with every `.dart` occurrence
renamed to `_test.dart`; when it occurs, the derived path is `test/` followed
by the suffix after the LAST occurrence of `lib/` (the suffix contains no
further `lib/`), with the same rename — i.e. a last-occurrence suffix
extraction, not an in-place prefix substitution. -/
theorem c9_amended (p : String) :
    (containsSub p ("lib/") = false →
      get_test_file_path p = pyReplace p (".dart") ("_test.dart")) ∧
    (containsSub p ("lib/") = true →
      ∃ pre rest, p.data = pre ++ ("lib/").data ++ rest ∧
        containsSubList ("lib/").data rest = false ∧
        get_test_file_path p =
          "test/" ++ pyReplace (⟨rest⟩ : String) (".dart") ("_test.dart")) := by
  constructor
  · intro h
    unfold get_test_file_path
    rw [if_neg (by simp [containsSub] at h ⊢; exact h)]
  · intro h
    have hc : containsSubList ("lib/").data p.data = true := h
    obtain ⟨pre, heq, hnc⟩ :=
      splitOnSubList_last_decomp ("lib/").data (by decide) p.data.length p.data
        (Nat.le_refl _) hc
    refine ⟨pre, (splitOnSubList ("lib/").data p.data.length p.data).getLastD [],
      heq, hnc, ?_⟩
    unfold get_test_file_path
    rw [if_pos h]

theorem c9_amended_witness :
    (containsSub ("a.dart") ("lib/") = false) ∧
    (get_test_file_path ("a.dart") = pyReplace ("a.dart") (".dart") ("_test.dart")) ∧
    (containsSub ("lib/a.dart") ("lib/") = true) ∧
    (∃ pre rest, ("lib/a.dart").data = pre ++ ("lib/").data ++ rest ∧
      containsSubList ("lib/").data rest = false ∧
      get_test_file_path ("lib/a.dart") =
        "test/" ++ pyReplace (⟨rest⟩ : String) (".dart") ("_test.dart")) :=
  ⟨by decide, (c9_amended ("a.dart")).1 (by decide), by decide,
   (c9_amended ("lib/a.dart")).2 (by decide)⟩

end FlutterSkills
